import Mathlib

/-!
Verification of the authentication / 2FA core of the Hospital-Management
backend against its natural-language specification.

The definitions below are a shallow embedding of the JavaScript source:

* `backend/src/config/env.js`            — `Env`, `buildConfig`, `validateProductionConfig`
* `backend/src/utils/encryption.js`      — `getEncryptionKey`, `encryptTotpSecret`, `decryptTotpSecret`
* `backend/src/utils/jwt.js`             — `generateTempToken`, `verifyTempTokenPurpose`, `verifyToken`
* `backend/src/middleware/auth.js`       — `mwVerifyTempToken`
* `backend/src/services/totp.service.js` — `verifyTotpToken`, `generateBackupCodes`,
                                           `verifyBackupCode`, `checkTotpLockout`,
                                           `recordFailedAttempt`, `resetFailedAttempts`
* `backend/src/controllers/auth.controller.js` — `verifyRegistration`, `verifyTotpLogin`,
                                           `disableTotp`, `verifyTotpReset`, `recoveryLogin`,
                                           `refreshTokenCtrl`, `logoutCtrl`
* `backend/src/services/token.service.js` is not part of the provided sources; its three
  operations are modelled from the specification (section 4.4) and are marked as such.

External libraries are embedded at the level of their observable contracts:
`jsonwebtoken` as a record carrying payload, signing key and expiry; `speakeasy`
as the RFC-6238 step/window check parameterised by the HMAC-derived digit
function; AES-256-GCM and bcrypt as invertible wrappers (their cryptographic
correctness is exactly the inverse property the code relies on).  JavaScript
truthiness (`x || d`, `if (x)`) is made explicit via the `jsOr*` helpers.

Time is a natural number of milliseconds (JS `Date.now()`).
-/

deriving instance DecidableEq for Except

namespace HospitalAuth

/-! ## JavaScript truthiness helpers -/

/-- JS `s || d` for an optional string: `undefined` and `""` are falsy. -/
def jsOrStr (v : Option String) (d : String) : String :=
  match v with
  | none => d
  | some s => if s = "" then d else s

/-- JS truthiness of an optional string (`undefined` and `""` are falsy). -/
def jsTruthyStr (v : Option String) : Bool :=
  match v with
  | none => false
  | some s => s ≠ ""

/-- JS `n || d` for an optional number: `undefined` and `0` are falsy. -/
def jsOrNat (v : Option Nat) (d : Nat) : Nat :=
  match v with
  | none => d
  | some 0 => d
  | some n => n

/-- Does the character list start with `pat`? -/
def leadsWith : List Char → List Char → Bool
  | [], _ => true
  | _ :: _, [] => false
  | a :: as, b :: bs => a == b && leadsWith as bs

/-- Does the character list contain `pat` as a contiguous subsequence? -/
def containsSeq (pat : List Char) : List Char → Bool
  | [] => pat.isEmpty
  | c :: rest => leadsWith pat (c :: rest) || containsSeq pat rest

/-- Replace the first occurrence of `pat` by `repl`; `none` when `pat` does
not occur. -/
def replaceFirstAux (pat repl : List Char) : List Char → Option (List Char)
  | [] => none
  | c :: rest =>
    if leadsWith pat (c :: rest) then some (repl ++ (c :: rest).drop pat.length)
    else (replaceFirstAux pat repl rest).map (c :: ·)

/-- JS `String.prototype.replace` with a string pattern replaces only the
first occurrence (and an empty pattern matches at the start).  Used for
`code.replace("-", "")`. -/
def jsReplaceFirst (s pat repl : String) : String :=
  if pat.toList.isEmpty then repl ++ s
  else
    match replaceFirstAux pat.toList repl.toList s.toList with
    | some l => String.mk l
    | none => s

/-- `s.toUpperCase()` (character-wise, as for the ASCII alphabet JS and Lean
agree). -/
def jsToUpper (s : String) : String :=
  String.mk (s.toList.map Char.toUpper)

/-! ## `config/env.js`

The `config` object copies a fixed list of variables out of `process.env`.
`Env` holds exactly the variables that `env.js` reads.  Note that none of
`TOTP_WINDOW`, `TOTP_SETUP_WINDOW`, `TOTP_ENCRYPTION_KEY`, `TOTP_MAX_ATTEMPTS`,
`TOTP_LOCK_DURATION_MINUTES`, `MAX_BACKUP_CODES`, `TOTP_ISSUER` appears in the
object literal of `env.js`, so the corresponding `config` properties are the
JS value `undefined` (`none`) for every environment. -/

structure Env where
  NODE_ENV : Option String := none
  JWT_SECRET : Option String := none
  JWT_EXPIRY : Option String := none
  REFRESH_TOKEN_SECRET : Option String := none
  REFRESH_TOKEN_EXPIRY : Option String := none
  MONGODB_URI : Option String := none
  R2_ACCESS_KEY_ID : Option String := none
  R2_SECRET_ACCESS_KEY : Option String := none
deriving Repr, DecidableEq

structure Config where
  NODE_ENV : String
  JWT_SECRET : String
  REFRESH_TOKEN_SECRET : String
  MONGODB_URI : String
  R2_ACCESS_KEY_ID : Option String
  R2_SECRET_ACCESS_KEY : Option String
  /-- read by `encryption.js` but never placed in the `config` literal -/
  TOTP_ENCRYPTION_KEY : Option String
  /-- read by `totp.service.js` but never placed in the `config` literal -/
  TOTP_WINDOW : Option Nat
  /-- read by `totp.service.js` but never placed in the `config` literal -/
  TOTP_SETUP_WINDOW : Option Nat
  TOTP_MAX_ATTEMPTS : Option Nat
  TOTP_LOCK_DURATION_MINUTES : Option Nat
  MAX_BACKUP_CODES : Option Nat
deriving Repr, DecidableEq

/-- The `config` object literal of `env.js` (lines 10-49), as a function of
`process.env`.  The `TOTP_*` and `MAX_BACKUP_CODES` properties are absent from
the literal, hence `none` regardless of the environment. -/
def buildConfig (e : Env) : Config :=
  { NODE_ENV := jsOrStr e.NODE_ENV "development"
    JWT_SECRET := jsOrStr e.JWT_SECRET "dev-secret-key-change-in-production"
    REFRESH_TOKEN_SECRET := jsOrStr e.REFRESH_TOKEN_SECRET "dev-refresh-secret-key"
    MONGODB_URI := jsOrStr e.MONGODB_URI "mongodb://localhost:27017/hospital-management"
    R2_ACCESS_KEY_ID := e.R2_ACCESS_KEY_ID
    R2_SECRET_ACCESS_KEY := e.R2_SECRET_ACCESS_KEY
    TOTP_ENCRYPTION_KEY := none
    TOTP_WINDOW := none
    TOTP_SETUP_WINDOW := none
    TOTP_MAX_ATTEMPTS := none
    TOTP_LOCK_DURATION_MINUTES := none
    MAX_BACKUP_CODES := none }

/-- `s.includes("dev-")` -/
def containsDev (s : String) : Bool :=
  containsSeq "dev-".toList s.toList

/-- The production-mode validation block of `env.js` (lines 51-65): it throws
for a missing/dev `JWT_SECRET`, a missing `MONGODB_URI`, or missing R2
credentials, and checks nothing else. -/
def validateProductionConfig (c : Config) : Except String Unit :=
  if c.NODE_ENV = "production" then
    if c.JWT_SECRET = "" ∨ containsDev c.JWT_SECRET then
      .error "JWT_SECRET must be set in production"
    else if c.MONGODB_URI = "" then
      .error "MONGODB_URI must be set in production"
    else if ¬ jsTruthyStr c.R2_ACCESS_KEY_ID then
      .error "R2_ACCESS_KEY_ID must be set in production"
    else if ¬ jsTruthyStr c.R2_SECRET_ACCESS_KEY then
      .error "R2_SECRET_ACCESS_KEY must be set in production"
    else .ok ()
  else .ok ()

/-! ## `utils/encryption.js` -/

/-- 64 hex characters, the shape `getEncryptionKey` requires
(`/^[0-9a-fA-F]{64}$/`). -/
def isHex64 (k : String) : Bool :=
  k.length = 64 && k.toList.all (fun ch =>
    (Char.ofNat 48 ≤ ch && ch ≤ Char.ofNat 57) ||
    (Char.ofNat 97 ≤ ch && ch ≤ Char.ofNat 102) ||
    (Char.ofNat 65 ≤ ch && ch ≤ Char.ofNat 70))

/-- `getEncryptionKey` of `encryption.js`: throws when
`config.TOTP_ENCRYPTION_KEY` is falsy or not a 64-character hex string.  It is
called lazily, on each `encryptTotpSecret`/`decryptTotpSecret` call — never at
startup. -/
def getEncryptionKey (c : Config) : Except String String :=
  match c.TOTP_ENCRYPTION_KEY with
  | none => .error "TOTP_ENCRYPTION_KEY is not configured"
  | some k =>
    if k = "" then .error "TOTP_ENCRYPTION_KEY is not configured"
    else if ¬ isHex64 k then
      .error "TOTP_ENCRYPTION_KEY must be a 64-character hex string (32 bytes)"
    else .ok k

/-- AES-256-GCM ciphertext `iv:authTag:payload`.  The cipher itself is Node
library crypto; it is embedded as an invertible wrapper (a fresh `iv` per call
plus the plaintext), which is precisely the round-trip/authenticity contract
the service code relies on. -/
structure EncSecret where
  iv : Nat
  payload : String
deriving Repr, DecidableEq

/-- `decryptTotpSecret`, at the level of the AES-GCM contract: recovers the
plaintext from a well-formed ciphertext. -/
def decryptTotpSecret (e : EncSecret) : String := e.payload

/-- `encryptTotpSecret`: pairs the plaintext with the fresh random `iv`. -/
def encryptTotpSecret (iv : Nat) (secret : String) : EncSecret :=
  ⟨iv, secret⟩

/-! ## `utils/jwt.js` — jsonwebtoken embedding

A signed token is a record of its payload claims, the secret it was signed
with, and its expiry instant.  `jwt.verify(token, secret)` succeeds exactly
when the token was signed with `secret` and has not expired; the two failure
modes (`TokenExpiredError` vs `JsonWebTokenError`) are distinguished as in the
library. -/

structure JwtClaims where
  id : Option Nat := none
  pendingId : Option Nat := none
  type : Option String := none
  purpose : Option String := none
deriving Repr, DecidableEq

structure Jwt where
  claims : JwtClaims
  key : String
  exp : Nat
deriving Repr, DecidableEq

inductive JwtError where
  | expired
  | invalid
deriving Repr, DecidableEq

/-- `jwt.verify(token, secret)`. -/
def jwtVerifyRaw (t : Jwt) (secret : String) (nowMs : Nat) : Except JwtError JwtClaims :=
  if t.key ≠ secret then .error .invalid
  else if t.exp ≤ nowMs then .error .expired
  else .ok t.claims

/-- `verifyToken` of `jwt.js`: wraps the two library errors into the messages
the middleware later surfaces. -/
def verifyToken (t : Jwt) (secret : String) (nowMs : Nat) : Except String JwtClaims :=
  match jwtVerifyRaw t secret nowMs with
  | .error .expired => .error "Token has expired"
  | .error .invalid => .error "Invalid token"
  | .ok d => .ok d

/-- `generateTempToken(hospitalId, purpose = "TOTP_LOGIN")`: a `type=temp`
token signed with `JWT_SECRET`, expiring in 10 minutes, carrying the purpose
claim. -/
def generateTempToken (c : Config) (hospitalId : Nat) (purpose : String) (nowMs : Nat) : Jwt :=
  { claims := { id := some hospitalId, type := some "temp", purpose := some purpose }
    key := c.JWT_SECRET
    exp := nowMs + 10 * 60 * 1000 }

/-- `verifyTempTokenPurpose(token, expectedPurpose)` of `jwt.js`: verifies the
signature and expiry, then requires `type === "temp"` and
`purpose === expectedPurpose`. -/
def verifyTempTokenPurpose (c : Config) (t : Jwt) (expectedPurpose : String) (nowMs : Nat) :
    Except String JwtClaims :=
  match jwtVerifyRaw t c.JWT_SECRET nowMs with
  | .error .expired => .error "Token has expired"
  | .error .invalid => .error "Invalid token"
  | .ok d =>
    if d.type ≠ some "temp" then .error "Invalid token type"
    else if d.purpose ≠ some expectedPurpose then
      .error ("Token purpose mismatch: expected " ++ expectedPurpose ++ ", got " ++
        (d.purpose.getD "undefined"))
    else .ok d

/-! ## `middleware/auth.js` — `verifyTempToken` -/

inductive MwResult where
  /-- `res.status(status).json({message})` -/
  | reject (status : Nat) (message : String)
  /-- `req.hospital = {id}`, `req.tokenPurpose`, `next()` -/
  | accept (hospitalId : Option Nat) (tokenPurpose : String)
deriving Repr, DecidableEq

/-- The `verifyTempToken` middleware: requires a token, verifies it with
`JWT_SECRET`, requires `type === "temp"`, and rejects a *present, truthy*
purpose different from `"TOTP_LOGIN"`; a token without a purpose claim passes,
with `req.tokenPurpose` defaulted to `"TOTP_LOGIN"`
(`decoded.purpose || "TOTP_LOGIN"`). -/
def mwVerifyTempToken (c : Config) (tok : Option Jwt) (nowMs : Nat) : MwResult :=
  match tok with
  | none => .reject 401 "No token provided"
  | some t =>
    match verifyToken t c.JWT_SECRET nowMs with
    | .error m => .reject 401 m
    | .ok d =>
      if d.type ≠ some "temp" then
        .reject 401 "Invalid token type. Use temporary token for TOTP verification."
      else if jsTruthyStr d.purpose ∧ d.purpose ≠ some "TOTP_LOGIN" then
        .reject 401 "Token purpose mismatch. Invalid token for this operation."
      else
        .accept d.id (jsOrStr d.purpose "TOTP_LOGIN")

/-! ## `services/totp.service.js` — speakeasy embedding

`speakeasy.totp.verify({secret, token, window, step: 30})` accepts the token
iff the RFC-6238 digit function of the secret matches at some time-step
counter in `[current - w, current + w]`, where the current counter is
`floor(Date.now() / 1000 / 30)` and `w` is the `window` option coerced with
`parseInt(options.window, 10) || 0` — so an `undefined` window (`none`) is
coerced to `0`.  The HMAC-SHA1 dynamic-truncation digit function is library
crypto; it is a parameter `digest : String → Int → Nat` of the embedding
(secret, counter ↦ 6-digit code). -/

/-- `parseInt(options.window, 10) || 0` — the coercion speakeasy applies to
the `window` option; `undefined` becomes `0`. -/
def speakeasyWindow (w : Option Nat) : Nat := w.getD 0

/-- `speakeasy.totp.verify` with `step: 30`: match at any counter within
`window` steps of the current counter. -/
def speakeasyTotpVerify (digest : String → Int → Nat) (secret : String) (token : Nat)
    (nowMs : Nat) (window : Option Nat) : Bool :=
  let w := speakeasyWindow window
  let c : Int := (nowMs : Int) / 30000
  (List.range (2 * w + 1)).any (fun k => digest secret (c - (w : Int) + (k : Int)) == token)

/-- The code an authenticator app shows at instant `tMs` for `secret`
(RFC 6238, 30-second step). -/
def codeAt (digest : String → Int → Nat) (secret : String) (tMs : Nat) : Nat :=
  digest secret ((tMs : Int) / 30000)

/-- `verifyTotpToken(encryptedSecret, token, isSetup)` of `totp.service.js`:
decrypts the secret and calls speakeasy with
`window = isSetup ? config.TOTP_SETUP_WINDOW : config.TOTP_WINDOW`. -/
def verifyTotpToken (c : Config) (digest : String → Int → Nat) (encryptedSecret : EncSecret)
    (token : Nat) (isSetup : Bool) (nowMs : Nat) : Bool :=
  let secret := decryptTotpSecret encryptedSecret
  let window := if isSetup then c.TOTP_SETUP_WINDOW else c.TOTP_WINDOW
  speakeasyTotpVerify digest secret token nowMs window

/-! ## Hospital document (`models/Hospital.js`, auth-relevant fields) -/

structure Hosp where
  id : Nat
  email : String
  passwordHash : String
  isActive : Bool := true
  failedLoginAttempts : Nat := 0
  lockUntil : Option Nat := none
  totpEnabled : Bool := false
  totpVerified : Bool := false
  totpSecretEncrypted : Option EncSecret := none
  totpPendingSecret : Option EncSecret := none
  totpSetupAt : Option Nat := none
  totpLastUsedAt : Option Nat := none
  totpFailedAttempts : Nat := 0
  totpLockedUntil : Option Nat := none
  totpSecretVersion : Nat := 1
deriving Repr, DecidableEq

/-! ## TOTP lockout bookkeeping (`totp.service.js`) -/

structure LockoutStatus where
  isLocked : Bool
  lockUntil : Option Nat
  remainingAttempts : Int
deriving Repr, DecidableEq

/-- `checkTotpLockout(hospital)`: locked only while `totpLockedUntil` is
strictly in the future; an expired lock reads as unlocked with the full
attempt budget (without persisting the reset).
`maxAttempts = config.TOTP_MAX_ATTEMPTS || 5`. -/
def checkTotpLockout (c : Config) (h : Hosp) (nowMs : Nat) : LockoutStatus :=
  let maxAttempts := jsOrNat c.TOTP_MAX_ATTEMPTS 5
  match h.totpLockedUntil with
  | some u =>
    if nowMs < u then
      { isLocked := true, lockUntil := some u, remainingAttempts := 0 }
    else
      { isLocked := false, lockUntil := none, remainingAttempts := (maxAttempts : Int) }
  | none =>
    { isLocked := false, lockUntil := none,
      remainingAttempts := (maxAttempts : Int) - (h.totpFailedAttempts : Int) }

structure FailResult where
  isNowLocked : Bool
  attemptsRemaining : Int
deriving Repr, DecidableEq

/-- `recordFailedAttempt(hospital)`: clears an expired lock, increments the
counter, and at `maxAttempts` (`config.TOTP_MAX_ATTEMPTS || 5`) sets
`totpLockedUntil = now + (config.TOTP_LOCK_DURATION_MINUTES || 5) minutes`.
Returns the saved document together with the result object. -/
def recordFailedAttempt (c : Config) (h : Hosp) (nowMs : Nat) : Hosp × FailResult :=
  let maxAttempts := jsOrNat c.TOTP_MAX_ATTEMPTS 5
  let lockDuration := jsOrNat c.TOTP_LOCK_DURATION_MINUTES 5 * 60 * 1000
  let h1 :=
    match h.totpLockedUntil with
    | some u => if u ≤ nowMs then { h with totpFailedAttempts := 0, totpLockedUntil := none } else h
    | none => h
  let h2 := { h1 with totpFailedAttempts := h1.totpFailedAttempts + 1 }
  if maxAttempts ≤ h2.totpFailedAttempts then
    ({ h2 with totpLockedUntil := some (nowMs + lockDuration) },
      { isNowLocked := true, attemptsRemaining := 0 })
  else
    (h2, { isNowLocked := false,
           attemptsRemaining := (maxAttempts : Int) - (h2.totpFailedAttempts : Int) })

/-- `resetFailedAttempts(hospital)`: zeroes the counter and clears the lock. -/
def resetFailedAttempts (h : Hosp) : Hosp :=
  { h with totpFailedAttempts := 0, totpLockedUntil := none }

/-- `updateTotpLastUsed(hospital)`. -/
def updateTotpLastUsed (h : Hosp) (nowMs : Nat) : Hosp :=
  { h with totpLastUsedAt := some nowMs }

/-- The account state after a sequence of `recordFailedAttempt` calls at the
given instants. -/
def failTimes (c : Config) : Hosp → List Nat → Hosp
  | h, [] => h
  | h, t :: ts => failTimes c (recordFailedAttempt c h t).1 ts

/-! ## Backup codes (`models/BackupCode.js`, `totp.service.js`)

bcrypt (`hashOtp`/`compareOtp`) is embedded as a salted wrapper: a hash
records the salt and the plaintext it was derived from, and `compareOtp`
succeeds exactly on that plaintext — the contract of `bcrypt.compare`.
Distinct salts (here: the generation index) make equal plaintexts hash to
distinct values, as bcrypt's random salts do. -/

structure OtpHash where
  salt : Nat
  plain : String
deriving Repr, DecidableEq

/-- `hashOtp` (bcrypt hash with a fresh salt). -/
def hashOtp (salt : Nat) (plain : String) : OtpHash := ⟨salt, plain⟩

/-- `compareOtp(candidate, hash)` (bcrypt compare). -/
def compareOtp (candidate : String) (h : OtpHash) : Bool := h.plain == candidate

structure BackupRow where
  hospitalId : Nat
  codeHash : OtpHash
  isUsed : Bool := false
  usedAt : Option Nat := none
deriving Repr, DecidableEq

/-- `generateBackupCodes(hospitalId)`: deletes every existing row of the
hospital, then generates `config.MAX_BACKUP_CODES || 10` codes of the shape
`part1 + "-" + part2` where each part is a fresh 4-character draw from
`crypto.randomBytes` (`draws` is the stream of those draws), hashes each code
with the dash removed, and inserts the rows.  Returns the new collection and
the plaintext codes.  No uniqueness check is performed on the draws. -/
def generateBackupCodes (c : Config) (hospitalId : Nat) (draws : Nat → String)
    (db : List BackupRow) : List BackupRow × List String :=
  let numCodes := jsOrNat c.MAX_BACKUP_CODES 10
  let mkCode := fun i => draws (2 * i) ++ "-" ++ draws (2 * i + 1)
  let plainCodes := (List.range numCodes).map mkCode
  let rows := (List.range numCodes).map (fun i =>
    { hospitalId := hospitalId
      codeHash := hashOtp i (jsReplaceFirst (mkCode i) "-" "")
      isUsed := false
      usedAt := none : BackupRow })
  (db.filter (fun r => r.hospitalId != hospitalId) ++ rows, plainCodes)

/-- `code.replace("-", "").toUpperCase()` — the normalisation applied by
`verifyBackupCode`. -/
def normalizeCode (code : String) : String :=
  jsToUpper (jsReplaceFirst code "-" "")

/-- Mark the first unused row of the hospital whose hash matches the
normalised code as used; `none` when no row matches.  This is the net effect
of `BackupCode.find({hospitalId, isUsed: false})` followed by the
first-match `save()`. -/
def consumeBackupCode (hospitalId : Nat) (normalized : String) (nowMs : Nat) :
    List BackupRow → Option (List BackupRow)
  | [] => none
  | r :: rest =>
    if r.hospitalId == hospitalId && !r.isUsed && compareOtp normalized r.codeHash then
      some ({ r with isUsed := true, usedAt := some nowMs } :: rest)
    else
      (consumeBackupCode hospitalId normalized nowMs rest).map (r :: ·)

/-- `verifyBackupCode(hospitalId, code)`: normalises the input, consumes the
first matching unused row, and reports whether one was found. -/
def verifyBackupCode (hospitalId : Nat) (code : String) (nowMs : Nat)
    (db : List BackupRow) : Bool × List BackupRow :=
  match consumeBackupCode hospitalId (normalizeCode code) nowMs db with
  | some db1 => (true, db1)
  | none => (false, db)

/-- `getBackupCodesCount(hospitalId)`: unused rows of the hospital. -/
def getBackupCodesCount (hospitalId : Nat) (db : List BackupRow) : Nat :=
  db.countP (fun r => r.hospitalId == hospitalId && !r.isUsed)

/-! ## Session store (`services/token.service.js`)

`token.service.js` itself is not among the provided sources — only its
callers in `auth.controller.js` are.  The three operations are therefore
modelled from the specification, section 4.4 (Session Store), and marked
accordingly. -/

structure Session where
  hospitalId : Nat
  refreshToken : Jwt
  deviceId : String
  ipAddress : String
  userAgent : String
  createdAt : Nat
  expiresAt : Nat
deriving Repr, DecidableEq

structure SessionTokens where
  accessToken : Jwt
  refreshToken : Jwt
  tokenType : String
  expiresIn : Nat
deriving Repr, DecidableEq

/-- Access token: `type=access`, signed with `JWT_SECRET`
(`JWT_EXPIRY` default `"24h"`). -/
def mkAccessToken (c : Config) (hospitalId : Nat) (nowMs : Nat) : Jwt :=
  { claims := { id := some hospitalId, type := some "access" }
    key := c.JWT_SECRET
    exp := nowMs + 24 * 60 * 60 * 1000 }

/-- Refresh token: `type=refresh`, signed with the separate
`REFRESH_TOKEN_SECRET` (`REFRESH_TOKEN_EXPIRY` default `"7d"`). -/
def mkRefreshToken (c : Config) (hospitalId : Nat) (nowMs : Nat) : Jwt :=
  { claims := { id := some hospitalId, type := some "refresh" }
    key := c.REFRESH_TOKEN_SECRET
    exp := nowMs + 7 * 24 * 60 * 60 * 1000 }

/-- Modelled from the spec: `createSession` of the missing
`token.service.js` — "mints both tokens via the Token Issuer and persists a
session row keyed by the refresh token" (spec 4.4). -/
def createSession (c : Config) (hospitalId : Nat) (deviceId ipAddress userAgent : String)
    (nowMs : Nat) (sessions : List Session) : List Session × SessionTokens :=
  let access := mkAccessToken c hospitalId nowMs
  let refresh := mkRefreshToken c hospitalId nowMs
  let row : Session :=
    { hospitalId := hospitalId, refreshToken := refresh, deviceId := deviceId
      ipAddress := ipAddress, userAgent := userAgent
      createdAt := nowMs, expiresAt := refresh.exp }
  (row :: sessions, { accessToken := access, refreshToken := refresh
                      tokenType := "Bearer", expiresIn := 24 * 60 * 60 })

/-- Modelled from the spec: `refreshAccessToken` of the missing
`token.service.js` — "looks up the session, verifies the token's signature
and expiry, mints a new access token" (spec 4.4).  Liveness is gated by the
persisted row: with no row the call fails before any signature check.
Rotation-on-refresh is left unadopted (spec 9 records the source as
inconsistent on it); the row and the refresh token are returned unchanged,
which is what the `refreshToken` controller observes. -/
def refreshAccessToken (c : Config) (sessions : List Session) (tok : Jwt) (nowMs : Nat) :
    Except String (List Session × SessionTokens) :=
  match sessions.find? (fun s => s.refreshToken == tok) with
  | none => .error "Invalid session"
  | some s =>
    match jwtVerifyRaw tok c.REFRESH_TOKEN_SECRET nowMs with
    | .error .expired => .error "Token has expired"
    | .error .invalid => .error "Invalid token"
    | .ok _ =>
      .ok (sessions, { accessToken := mkAccessToken c s.hospitalId nowMs
                       refreshToken := tok, tokenType := "Bearer"
                       expiresIn := 24 * 60 * 60 })

/-- Modelled from the spec: `invalidateSession` of the missing
`token.service.js` — "deletes the session row" (spec 4.4). -/
def invalidateSession (sessions : List Session) (tok : Jwt) : List Session :=
  sessions.filter (fun s => s.refreshToken != tok)

/-! ## Persisted state shared by the controllers -/

/-- `models/PendingHospital.js`: ephemeral registration record
(TTL-expired 900 seconds after `createdAt` by MongoDB, i.e. deleted from the
collection; expiry is therefore visible as absence). -/
structure PendingHosp where
  id : Nat
  hospitalName : String
  email : String
  passwordHash : String
  phoneNumber : String
  address : String
  logoUrl : Option String := none
  totpSecretEncrypted : EncSecret
  totpIssuer : Option String := none
  createdAt : Nat := 0
deriving Repr, DecidableEq

structure St where
  hospitals : List Hosp
  pendings : List PendingHosp
  backupCodes : List BackupRow
  sessions : List Session
  /-- `AuditLog` is an append-only sink; only its size is tracked. -/
  audits : Nat
deriving Repr, DecidableEq

/-- `Hospital.findById`. -/
def findHospital (l : List Hosp) (hid : Nat) : Option Hosp :=
  l.find? (fun h => h.id == hid)

/-- `hospital.save()`: replace the document with the same id. -/
def saveHospital (l : List Hosp) (h : Hosp) : List Hosp :=
  l.map (fun x => if x.id == h.id then h else x)

/-- `crypto.createHash("sha256").update(userAgent).digest("hex").substring(0, 16)`:
the device fingerprint is library crypto whose value no claim depends on;
it is modelled as the user agent itself. -/
def deviceIdOf (ua : String) : String := ua

/-! ## `auth.controller.js` — `verifyTotpLogin` -/

inductive TotpLoginResp where
  | badRequest (message : String)
  | unauthorized
  | notFound
  /-- 423, lockout already active (checked before any code verification) -/
  | locked (lockUntil : Option Nat)
  /-- 423, this failed attempt reached the limit -/
  | nowLocked (lockUntil : Option Nat)
  | invalidCode (attemptsRemaining : Int)
  /-- 500 — e.g. `decryptTotpSecret(undefined)` throwing -/
  | serverError
  | success (tokens : SessionTokens)
deriving Repr, DecidableEq

/-- `verifyTotpLogin` (controller): lockout is checked first and a locked
account is rejected before `verifyTotpToken` is ever consulted; an invalid
code records a failed attempt; a valid code resets the counters and opens a
session. -/
def verifyTotpLoginCtrl (c : Config) (digest : String → Int → Nat) (st : St)
    (hospitalId : Option Nat) (tok : Option Nat) (ua ip : String) (nowMs : Nat) :
    TotpLoginResp × St :=
  match tok with
  | none => (.badRequest "TOTP token is required", st)
  | some token =>
    match hospitalId with
    | none => (.unauthorized, st)
    | some hid =>
      match findHospital st.hospitals hid with
      | none => (.notFound, st)
      | some h =>
        let ls := checkTotpLockout c h nowMs
        if ls.isLocked then
          (.locked ls.lockUntil, { st with audits := st.audits + 1 })
        else
          match h.totpSecretEncrypted with
          | none => (.serverError, st)
          | some enc =>
            if verifyTotpToken c digest enc token false nowMs then
              let h1 := updateTotpLastUsed (resetFailedAttempts h) nowMs
              let (sessions1, tokens) := createSession c hid (deviceIdOf ua) ip ua nowMs st.sessions
              (.success tokens,
               { st with hospitals := saveHospital st.hospitals h1
                         sessions := sessions1, audits := st.audits + 1 })
            else
              let (h1, fr) := recordFailedAttempt c h nowMs
              let st1 := { st with hospitals := saveHospital st.hospitals h1
                                   audits := st.audits + 1 }
              if fr.isNowLocked then (.nowLocked h1.totpLockedUntil, st1)
              else (.invalidCode fr.attemptsRemaining, st1)

/-! ## `auth.controller.js` — `recoveryLogin` -/

inductive RecoveryResp where
  | badRequest (message : String)
  | unauthorized
  | notFound
  /-- 400 "Invalid or already used backup code" -/
  | invalidCode
  | success (tokens : SessionTokens) (remainingBackupCodes : Nat)
deriving Repr, DecidableEq

/-- `recoveryLogin` (controller): performs no lockout check; a valid unused
backup code is consumed, the TOTP failure counters are reset, and a session
is opened with the remaining-code count reported. -/
def recoveryLoginCtrl (c : Config) (st : St) (hospitalId : Option Nat)
    (code : Option String) (ua ip : String) (nowMs : Nat) : RecoveryResp × St :=
  match code with
  | none => (.badRequest "Backup code is required", st)
  | some cd =>
    match hospitalId with
    | none => (.unauthorized, st)
    | some hid =>
      match findHospital st.hospitals hid with
      | none => (.notFound, st)
      | some h =>
        match verifyBackupCode hid cd nowMs st.backupCodes with
        | (false, _) => (.invalidCode, { st with audits := st.audits + 1 })
        | (true, db1) =>
          let h1 := resetFailedAttempts h
          let remaining := getBackupCodesCount hid db1
          let (sessions1, tokens) := createSession c hid (deviceIdOf ua) ip ua nowMs st.sessions
          (.success tokens remaining,
           { st with hospitals := saveHospital st.hospitals h1
                     backupCodes := db1, sessions := sessions1
                     audits := st.audits + 1 })

/-! ## `auth.controller.js` — `disableTotp` and `verifyTotpReset` -/

inductive DisableResp where
  | badRequest (message : String)
  | unauthorized
  | notFound
  | serverError
  /-- 200 "2FA has been disabled" -/
  | ok
deriving Repr, DecidableEq

/-- `disableTotp` (controller): requires a valid current code, then sets
`totpEnabled/totpVerified` false, clears `totpSecretEncrypted`,
`totpSetupAt`, `totpLastUsedAt`, the attempt counters and the lock, resets
`totpSecretVersion`, and deletes the hospital's backup codes.  The source
assigns nothing to `totpPendingSecret` in this block, so that field is
carried over unchanged. -/
def disableTotpCtrl (c : Config) (digest : String → Int → Nat) (st : St)
    (hospitalId : Option Nat) (tok : Option Nat) (nowMs : Nat) : DisableResp × St :=
  match tok with
  | none => (.badRequest "TOTP token is required to disable 2FA", st)
  | some token =>
    match hospitalId with
    | none => (.unauthorized, st)
    | some hid =>
      match findHospital st.hospitals hid with
      | none => (.notFound, st)
      | some h =>
        if h.totpEnabled = false then (.badRequest "2FA is not enabled", st)
        else
          match h.totpSecretEncrypted with
          | none => (.serverError, st)
          | some enc =>
            if verifyTotpToken c digest enc token false nowMs then
              let h1 := { h with totpEnabled := false, totpVerified := false
                                 totpSecretEncrypted := none, totpSetupAt := none
                                 totpLastUsedAt := none, totpFailedAttempts := 0
                                 totpLockedUntil := none, totpSecretVersion := 1 }
              (.ok, { st with hospitals := saveHospital st.hospitals h1
                              backupCodes := st.backupCodes.filter (fun r => r.hospitalId != hid)
                              audits := st.audits + 1 })
            else (.badRequest "Invalid TOTP code. Cannot disable 2FA.", st)

inductive ResetVerifyResp where
  | badRequest (message : String)
  | notFound
  /-- 200 with the regenerated backup codes -/
  | success (backupCodes : List String)
deriving Repr, DecidableEq

/-- `verifyTotpReset` (controller): requires an in-flight rotation
(`totpPendingSecret` set) and a strict-window code against the pending
secret; on success the pending secret is promoted to
`totpSecretEncrypted`, `totpPendingSecret` is cleared, the counters reset,
and the backup codes are regenerated. -/
def verifyTotpResetCtrl (c : Config) (digest : String → Int → Nat) (st : St)
    (hospitalId : Option Nat) (tok : Option Nat) (draws : Nat → String) (nowMs : Nat) :
    ResetVerifyResp × St :=
  match tok with
  | none => (.badRequest "TOTP token is required", st)
  | some token =>
    match hospitalId.bind (findHospital st.hospitals) with
    | none => (.notFound, st)
    | some h =>
      match h.totpPendingSecret with
      | none => (.badRequest "No rotation pending. Please initiate 2FA reset first.", st)
      | some pending =>
        if verifyTotpToken c digest pending token true nowMs then
          let h1 := { h with totpSecretEncrypted := some pending
                             totpPendingSecret := none
                             totpEnabled := true, totpVerified := true
                             totpSetupAt := some nowMs
                             totpFailedAttempts := 0, totpLockedUntil := none }
          let cleaned := st.backupCodes.filter (fun r => r.hospitalId != h.id)
          let (db1, codes) := generateBackupCodes c h.id draws cleaned
          (.success codes,
           { st with hospitals := saveHospital st.hospitals h1
                     backupCodes := db1, audits := st.audits + 1 })
        else (.badRequest "Invalid TOTP code. Please try again.", st)

/-! ## `auth.controller.js` — `verifyRegistration` -/

inductive RegVerifyResp where
  /-- 400 — missing fields, `"Invalid or expired registration session"`,
  or `"Invalid TOTP code. Please try again."` -/
  | badRequest (message : String)
  /-- 404 "Registration session expired or invalid. Please register again." -/
  | notFound
  /-- 409 "Account already exists" (defensive email-collision check) -/
  | conflict
  /-- 201 with the session tokens and the one-time backup codes -/
  | success (backupCodes : List String) (tokens : SessionTokens)
deriving Repr, DecidableEq

/-- `verifyRegistration` (controller): verifies the registration token
(signature, expiry, `type === "REGISTRATION_VERIFY"`), loads the pending
record, re-checks for an email collision, verifies the code strictly against
the pending secret, and only then creates the permanent Hospital, deletes
the pending record, generates backup codes and opens a session.  `newHid`
is the id MongoDB assigns to the created document. -/
def verifyRegistrationCtrl (c : Config) (digest : String → Int → Nat) (st : St)
    (regToken : Option Jwt) (totpCode : Option Nat) (newHid : Nat)
    (draws : Nat → String) (ua ip : String) (nowMs : Nat) : RegVerifyResp × St :=
  match regToken, totpCode with
  | none, _ => (.badRequest "Registration token and TOTP code are required", st)
  | some _, none => (.badRequest "Registration token and TOTP code are required", st)
  | some t, some code =>
    match jwtVerifyRaw t c.JWT_SECRET nowMs with
    | .error _ => (.badRequest "Invalid or expired registration session", st)
    | .ok d =>
      if d.type ≠ some "REGISTRATION_VERIFY" then
        (.badRequest "Invalid or expired registration session", st)
      else
        match d.pendingId.bind (fun pid => st.pendings.find? (fun p => p.id == pid)) with
        | none => (.notFound, st)
        | some p =>
          if st.hospitals.any (fun h => h.email == p.email) then
            (.conflict, { st with pendings := st.pendings.filter (fun q => q.id != p.id) })
          else if verifyTotpToken c digest p.totpSecretEncrypted code true nowMs then
            let newHosp : Hosp :=
              { id := newHid, email := p.email, passwordHash := p.passwordHash
                isActive := true, totpEnabled := true, totpVerified := true
                totpSecretEncrypted := some p.totpSecretEncrypted
                totpSetupAt := some nowMs, failedLoginAttempts := 0 }
            let (db1, codes) := generateBackupCodes c newHid draws st.backupCodes
            let (sessions1, tokens) := createSession c newHid (deviceIdOf ua) ip ua nowMs st.sessions
            (.success codes tokens,
             { st with hospitals := newHosp :: st.hospitals
                       pendings := st.pendings.filter (fun q => q.id != p.id)
                       backupCodes := db1, sessions := sessions1
                       audits := st.audits + 1 })
          else (.badRequest "Invalid TOTP code. Please try again.", st)

/-! ## `auth.controller.js` — `refreshToken` and `logout` -/

inductive RefreshResp where
  | badRequest
  /-- 401 with the service error message -/
  | unauthorized (message : String)
  | ok (tokens : SessionTokens)
deriving Repr, DecidableEq

/-- `refreshToken` (controller): takes the refresh token from the cookie or
body and exchanges it through `refreshAccessToken`; a service failure is a
401.  (The response's `hospital` payload is loaded afterwards and does not
affect the outcome.) -/
def refreshTokenCtrl (c : Config) (st : St) (tok : Option Jwt) (nowMs : Nat) :
    RefreshResp × St :=
  match tok with
  | none => (.badRequest, st)
  | some t =>
    match refreshAccessToken c st.sessions t nowMs with
    | .error m => (.unauthorized m, st)
    | .ok (sessions1, tokens) => (.ok tokens, { st with sessions := sessions1 })

inductive LogoutResp where
  | badRequest
  /-- 200 "Logged out successfully" -/
  | ok
deriving Repr, DecidableEq

/-- `logout` (controller): deletes the session row keyed by the presented
refresh token. -/
def logoutCtrl (st : St) (tok : Option Jwt) : LogoutResp × St :=
  match tok with
  | none => (.badRequest, st)
  | some t => (.ok, { st with sessions := invalidateSession st.sessions t })

/-! ## Derived counting helpers -/

/-- Unused rows of `hospitalId` whose stored hash matches the normalised
candidate `n` — the rows `verifyBackupCode` can consume for `n`. -/
def matchCount (hospitalId : Nat) (n : String) (db : List BackupRow) : Nat :=
  db.countP (fun r => r.hospitalId == hospitalId && !r.isUsed && compareOtp n r.codeHash)

/-! ## Concrete scenario data used by the closed theorems and witnesses

`demoDigest` is a concrete stand-in for the RFC-6238 digit function: any
function `String → Int → Nat` whose values on adjacent counters differ
exercises the window logic; nothing below depends on HMAC-SHA1 itself. -/

def demoDigest : String → Int → Nat :=
  fun s i => (s.length * 7 + (i % 1000000).toNat * 13) % 1000000

/-- A fully-provisioned production environment (valid JWT secret, database
URI and R2 credentials). -/
def envProd : Env :=
  { NODE_ENV := some "production"
    JWT_SECRET := some "prod-jwt-secret"
    MONGODB_URI := some "mongodb://db/hm"
    R2_ACCESS_KEY_ID := some "AKIA123"
    R2_SECRET_ACCESS_KEY := some "r2secret" }

def cfgProd : Config := buildConfig envProd

/-- Account with a rotation in flight: active secret `"OLD"`, pending
secret `"NEW"`. -/
def hospRotating : Hosp :=
  { id := 1, email := "a@hospital.example", passwordHash := "ph"
    totpEnabled := true, totpVerified := true
    totpSecretEncrypted := some ⟨0, "OLD"⟩
    totpPendingSecret := some ⟨1, "NEW"⟩ }

def stRotating : St :=
  { hospitals := [hospRotating], pendings := [], backupCodes := [], sessions := [], audits := 0 }

/-- Draw stream on which every `randomBytes` draw comes out `"0000"`. -/
def zeroDraws : Nat → String := fun _ => "0000"

/-- Draw stream with pairwise-distinct, uppercase-stable draws. -/
def upperDraws : Nat → String := fun n => String.mk (List.replicate (n + 1) (Char.ofNat 65))

/-- A temp token without any `purpose` claim (as minted by a pre-purpose
version of `generateTempToken`). -/
def tempTokenNoPurpose : Jwt :=
  { claims := { id := some 7, type := some "temp" }, key := cfgProd.JWT_SECRET, exp := 1000 }

/-- A temp token minted for a different purpose. -/
def tempTokenOtherPurpose : Jwt :=
  { claims := { id := some 7, type := some "temp", purpose := some "PASSWORD_RESET" }
    key := cfgProd.JWT_SECRET, exp := 1000 }

/-- Fresh account used by the lockout witness. -/
def hospFresh : Hosp := { id := 2, email := "x@hospital.example", passwordHash := "ph" }

/-- Locked account holding one unused backup code, used by the
lockout-vs-recovery witness: `totpLockedUntil` is in the future at
`now = 1000`. -/
def hospLocked : Hosp :=
  { id := 3, email := "l@hospital.example", passwordHash := "ph"
    totpEnabled := true, totpVerified := true
    totpSecretEncrypted := some ⟨0, "LOCKEDSECRET"⟩
    totpFailedAttempts := 5, totpLockedUntil := some 301000 }

def rowLocked : BackupRow :=
  { hospitalId := 3, codeHash := ⟨0, "A0A1"⟩ }

def stLocked : St :=
  { hospitals := [hospLocked], pendings := [], backupCodes := [rowLocked]
    sessions := [], audits := 0 }

/-- Pending registration used by the registration witness. -/
def pendingReg : PendingHosp :=
  { id := 11, hospitalName := "General", email := "new@hospital.example"
    passwordHash := "ph", phoneNumber := "1234567890", address := "addr"
    totpSecretEncrypted := ⟨2, "REGSECRET"⟩ }

def stPending : St :=
  { hospitals := [], pendings := [pendingReg], backupCodes := [], sessions := [], audits := 0 }

/-- Registration token for `pendingReg`, signed with the production JWT
secret, expiring at 900000. -/
def regTokenW : Jwt :=
  { claims := { pendingId := some 11, type := some "REGISTRATION_VERIFY" }
    key := cfgProd.JWT_SECRET, exp := 900000 }

/-- Refresh token and session row used by the logout witness. -/
def refreshTokenW : Jwt := mkRefreshToken cfgProd 7 0

def sessionRowW : Session :=
  { hospitalId := 7, refreshToken := refreshTokenW, deviceId := "ua", ipAddress := "ip"
    userAgent := "ua", createdAt := 0, expiresAt := refreshTokenW.exp }

def stSession : St :=
  { hospitals := [], pendings := [], backupCodes := [], sessions := [sessionRowW], audits := 0 }

/-! ## Theorems -/

/-- **C1.**  The claim states that `verifyTotpToken(enc, code, isSetup=false)`
accepts any code generated within ±1 time step (±30 s) of verification time.
In the source the window handed to speakeasy is `config.TOTP_WINDOW`, which
`env.js` never defines, and speakeasy coerces an undefined window to `0`
(`parseInt(options.window, 10) || 0`).  Evaluated at a concrete account: the
current-step code is accepted, but a code generated 30 s earlier — inside the
tolerance the claim (and the code's own `window=1` comments) promise — is
rejected; the same code is accepted once speakeasy is given the documented
`window = 1`.  The first conjunct shows the root cause: no environment makes
`TOTP_WINDOW`/`TOTP_SETUP_WINDOW` defined. -/
theorem totp_login_window_defaults_to_zero :
    (∀ e : Env, (buildConfig e).TOTP_WINDOW = none ∧ (buildConfig e).TOTP_SETUP_WINDOW = none) ∧
    speakeasyWindow none = 0 ∧
    verifyTotpToken cfgProd demoDigest ⟨0, "SECRET"⟩ (codeAt demoDigest "SECRET" 90000) false 90000 = true ∧
    verifyTotpToken cfgProd demoDigest ⟨0, "SECRET"⟩ (codeAt demoDigest "SECRET" 60000) false 90000 = false ∧
    speakeasyTotpVerify demoDigest "SECRET" (codeAt demoDigest "SECRET" 60000) 90000 (some 1) = true :=
  ⟨fun _ => ⟨rfl, rfl⟩, rfl, by decide, by decide, by decide⟩

/-- **C2.**  The claim states that `disableTotp` clears both
`totpSecretEncrypted` and `totpPendingSecret`.  On an account with a rotation
in flight (`totpPendingSecret = "NEW"`), `disableTotp` with a valid current
code succeeds and clears the active secret, the flags, the timestamps and the
counters — but the pending secret survives untouched, so both secret fields
are not null afterwards.  For contrast, the last conjunct confirms the other
half of the claim: a successful `verifyTotpReset` does promote the pending
secret into `totpSecretEncrypted` and clears `totpPendingSecret`. -/
theorem disable_totp_leaves_pending_secret :
    (disableTotpCtrl cfgProd demoDigest stRotating (some 1)
        (some (codeAt demoDigest "OLD" 0)) 0).fst = .ok ∧
    ((disableTotpCtrl cfgProd demoDigest stRotating (some 1)
        (some (codeAt demoDigest "OLD" 0)) 0).snd.hospitals.map
      (fun h => (h.totpEnabled, h.totpSecretEncrypted, h.totpPendingSecret))) =
      [(false, none, some ⟨1, "NEW"⟩)] ∧
    ((verifyTotpResetCtrl cfgProd demoDigest stRotating (some 1)
        (some (codeAt demoDigest "NEW" 0)) upperDraws 0).snd.hospitals.map
      (fun h => (h.totpSecretEncrypted, h.totpPendingSecret))) =
      [(some ⟨1, "NEW"⟩, none)] :=
  ⟨by decide, by decide, by decide⟩

/-- **C9.**  The claim states that in production mode an absent or malformed
TOTP encryption key is rejected at process startup.  The production
validation block of `env.js` checks only `JWT_SECRET`, `MONGODB_URI` and the
two R2 credentials: a fully-provisioned production environment passes
startup validation even though the TOTP key is absent — indeed `env.js`
never copies `TOTP_ENCRYPTION_KEY` into `config` at all, so the rejection
happens only when `getEncryptionKey` is reached by the first
encrypt/decrypt call. -/
theorem production_startup_skips_totp_key_validation :
    validateProductionConfig cfgProd = .ok () ∧
    (∀ e : Env, (buildConfig e).TOTP_ENCRYPTION_KEY = none) ∧
    getEncryptionKey cfgProd = .error "TOTP_ENCRYPTION_KEY is not configured" :=
  ⟨by decide, fun _ => rfl, by decide⟩

/-- **C3.**  A temp token whose payload carries a (truthy) purpose different
from the one expected is rejected by both consumers of temp tokens, even when
its signature is valid and it has not expired: the `verifyTempToken`
middleware (which guards `/login/totp` and `/login/recovery` and expects
`TOTP_LOGIN`) answers 401 "Token purpose mismatch", and
`verifyTempTokenPurpose` of `jwt.js` raises its purpose-mismatch error for
any expected purpose `exp2` differing from the token's.  Both consumers also
reject a non-`temp` type (last conjunct). -/
theorem temp_token_purpose_mismatch_rejected (c : Config) (t : Jwt) (nowMs : Nat)
    (p exp2 : String)
    (hsig : t.key = c.JWT_SECRET) (hexp : nowMs < t.exp)
    (htype : t.claims.type = some "temp")
    (hp : t.claims.purpose = some p)
    (hne : p ≠ "TOTP_LOGIN") (hpe : p ≠ exp2) (hp0 : p ≠ "") :
    mwVerifyTempToken c (some t) nowMs =
      .reject 401 "Token purpose mismatch. Invalid token for this operation." ∧
    verifyTempTokenPurpose c t exp2 nowMs =
      .error ("Token purpose mismatch: expected " ++ exp2 ++ ", got " ++ p) ∧
    (∀ t2 : Jwt, t2.key = c.JWT_SECRET → nowMs < t2.exp → t2.claims.type ≠ some "temp" →
      mwVerifyTempToken c (some t2) nowMs =
        .reject 401 "Invalid token type. Use temporary token for TOTP verification.") := by
  have hnotle : ¬ t.exp ≤ nowMs := Nat.not_le.mpr hexp
  refine ⟨?_, ?_, ?_⟩
  · simp [mwVerifyTempToken, verifyToken, jwtVerifyRaw, hsig, hnotle, htype, hp,
      jsTruthyStr, hne, hp0]
  · simp [verifyTempTokenPurpose, jwtVerifyRaw, hsig, hnotle, htype, hp, hpe]
  · intro t2 hsig2 hexp2 htype2
    have hnotle2 : ¬ t2.exp ≤ nowMs := Nat.not_le.mpr hexp2
    simp [mwVerifyTempToken, verifyToken, jwtVerifyRaw, hsig2, hnotle2, htype2]

/-- Witness for C3: the concrete token minted for purpose `PASSWORD_RESET`
is rejected by the middleware and by `verifyTempTokenPurpose`. -/
theorem temp_token_purpose_mismatch_rejected_witness :
    mwVerifyTempToken cfgProd (some tempTokenOtherPurpose) 500 =
      .reject 401 "Token purpose mismatch. Invalid token for this operation." ∧
    verifyTempTokenPurpose cfgProd tempTokenOtherPurpose "TOTP_LOGIN" 500 =
      .error "Token purpose mismatch: expected TOTP_LOGIN, got PASSWORD_RESET" :=
  ⟨(temp_token_purpose_mismatch_rejected cfgProd tempTokenOtherPurpose 500
      "PASSWORD_RESET" "TOTP_LOGIN" rfl (by decide) rfl rfl
      (by decide) (by decide) (by decide)).1,
   (temp_token_purpose_mismatch_rejected cfgProd tempTokenOtherPurpose 500
      "PASSWORD_RESET" "TOTP_LOGIN" rfl (by decide) rfl rfl
      (by decide) (by decide) (by decide)).2.1⟩

/-- **C10.**  The `verifyTempToken` middleware — the guard of both the
TOTP-login and the recovery endpoints — accepts any validly-signed,
unexpired token of type `temp` whose payload has no `purpose` claim at all:
the purpose check fires only when a purpose is present, and the missing
purpose is defaulted to `TOTP_LOGIN` (`decoded.purpose || "TOTP_LOGIN"`). -/
theorem temp_token_without_purpose_accepted (c : Config) (t : Jwt) (nowMs : Nat)
    (hsig : t.key = c.JWT_SECRET) (hexp : nowMs < t.exp)
    (htype : t.claims.type = some "temp")
    (hp : t.claims.purpose = none) :
    mwVerifyTempToken c (some t) nowMs = .accept t.claims.id "TOTP_LOGIN" := by
  have hnotle : ¬ t.exp ≤ nowMs := Nat.not_le.mpr hexp
  simp [mwVerifyTempToken, verifyToken, jwtVerifyRaw, hsig, hnotle, htype, hp,
    jsTruthyStr, jsOrStr]

/-- Witness for C10: the concrete purposeless temp token passes the
middleware and is treated as purpose `TOTP_LOGIN`. -/
theorem temp_token_without_purpose_accepted_witness :
    mwVerifyTempToken cfgProd (some tempTokenNoPurpose) 500 = .accept (some 7) "TOTP_LOGIN" :=
  temp_token_without_purpose_accepted cfgProd tempTokenNoPurpose 500 rfl (by decide) rfl rfl

/-- Helper: from one recorded failure (counter 1, no lock), the next three
`recordFailedAttempt` calls do not lock, the fourth (fifth overall) locks for
five minutes, and `checkTotpLockout` flips from locked to unlocked once the
lock instant has passed. -/
theorem lockout_tail (e : Env) (h1 : Hosp) (t2 t3 t4 t5 : Nat)
    (ha : h1.totpFailedAttempts = 1) (hl : h1.totpLockedUntil = none) :
    (recordFailedAttempt (buildConfig e) h1 t2).2.isNowLocked = false ∧
    (recordFailedAttempt (buildConfig e) (failTimes (buildConfig e) h1 [t2]) t3).2.isNowLocked = false ∧
    (recordFailedAttempt (buildConfig e) (failTimes (buildConfig e) h1 [t2, t3]) t4).2.isNowLocked = false ∧
    (recordFailedAttempt (buildConfig e) (failTimes (buildConfig e) h1 [t2, t3, t4]) t5).2 = ⟨true, 0⟩ ∧
    (failTimes (buildConfig e) h1 [t2, t3, t4, t5]).totpLockedUntil = some (t5 + 5 * 60 * 1000) ∧
    checkTotpLockout (buildConfig e) (failTimes (buildConfig e) h1 [t2, t3, t4, t5]) t5 =
      ⟨true, some (t5 + 5 * 60 * 1000), 0⟩ ∧
    (∀ tAfter, t5 + 5 * 60 * 1000 ≤ tAfter →
      (checkTotpLockout (buildConfig e) (failTimes (buildConfig e) h1 [t2, t3, t4, t5]) tAfter).isLocked = false) := by
  obtain ⟨i0, m0, p0, a0, f0, l0, te0, tv0, ts0, tp0, sa0, lu0, fa0, lk0, sv0⟩ := h1
  simp only at ha hl
  subst ha
  subst hl
  have F5 : failTimes (buildConfig e)
      ⟨i0, m0, p0, a0, f0, l0, te0, tv0, ts0, tp0, sa0, lu0, 1, none, sv0⟩ [t2, t3, t4, t5] =
      ⟨i0, m0, p0, a0, f0, l0, te0, tv0, ts0, tp0, sa0, lu0, 5, some (t5 + 5 * 60 * 1000), sv0⟩ := rfl
  refine ⟨rfl, rfl, rfl, rfl, ?_, ?_, ?_⟩
  · rw [F5]
  · rw [F5]
    unfold checkTotpLockout
    simp only [buildConfig, jsOrNat]
    split
    · rfl
    · omega
  · intro tAfter hge
    rw [F5]
    unfold checkTotpLockout
    simp only [buildConfig, jsOrNat]
    split
    · omega
    · rfl

/-- **C4.**  From zero failed TOTP attempts and no active lock (either no
lock at all or an already-expired one), the first four calls to
`recordFailedAttempt` do not lock; the fifth locks the account until
`now + 5` minutes and reports `isNowLocked` with zero attempts remaining;
`checkTotpLockout` reports `isLocked = true` (with `remainingAttempts = 0`)
immediately after the fifth failure and `isLocked = false` at every instant
from `totpLockedUntil` on.  The thresholds are the `|| 5` defaults, since
`env.js` defines no `TOTP_MAX_ATTEMPTS`/`TOTP_LOCK_DURATION_MINUTES`. -/
theorem totp_lockout_after_five_failures (e : Env) (h : Hosp) (t1 t2 t3 t4 t5 : Nat)
    (h0 : h.totpFailedAttempts = 0)
    (hnl : h.totpLockedUntil = none ∨ ∃ u, h.totpLockedUntil = some u ∧ u ≤ t1) :
    (recordFailedAttempt (buildConfig e) h t1).2.isNowLocked = false ∧
    (recordFailedAttempt (buildConfig e) (failTimes (buildConfig e) h [t1]) t2).2.isNowLocked = false ∧
    (recordFailedAttempt (buildConfig e) (failTimes (buildConfig e) h [t1, t2]) t3).2.isNowLocked = false ∧
    (recordFailedAttempt (buildConfig e) (failTimes (buildConfig e) h [t1, t2, t3]) t4).2.isNowLocked = false ∧
    (recordFailedAttempt (buildConfig e) (failTimes (buildConfig e) h [t1, t2, t3, t4]) t5).2 = ⟨true, 0⟩ ∧
    (failTimes (buildConfig e) h [t1, t2, t3, t4, t5]).totpLockedUntil = some (t5 + 5 * 60 * 1000) ∧
    checkTotpLockout (buildConfig e) (failTimes (buildConfig e) h [t1, t2, t3, t4, t5]) t5 =
      ⟨true, some (t5 + 5 * 60 * 1000), 0⟩ ∧
    (∀ tAfter, t5 + 5 * 60 * 1000 ≤ tAfter →
      (checkTotpLockout (buildConfig e) (failTimes (buildConfig e) h [t1, t2, t3, t4, t5]) tAfter).isLocked = false) := by
  obtain ⟨i0, m0, p0, a0, f0, l0, te0, tv0, ts0, tp0, sa0, lu0, fa0, lk0, sv0⟩ := h
  simp only at h0
  subst h0
  have E1 : recordFailedAttempt (buildConfig e)
      ⟨i0, m0, p0, a0, f0, l0, te0, tv0, ts0, tp0, sa0, lu0, 0, lk0, sv0⟩ t1 =
      (⟨i0, m0, p0, a0, f0, l0, te0, tv0, ts0, tp0, sa0, lu0, 1, none, sv0⟩, ⟨false, 4⟩) := by
    rcases hnl with hlock | ⟨u, hlock, hu⟩
    · simp only at hlock
      subst hlock
      rfl
    · simp only at hlock
      subst hlock
      simp only [recordFailedAttempt]
      rw [if_pos hu]
      rfl
  have F0 : ∀ ts, failTimes (buildConfig e)
      ⟨i0, m0, p0, a0, f0, l0, te0, tv0, ts0, tp0, sa0, lu0, 0, lk0, sv0⟩ (t1 :: ts) =
      failTimes (buildConfig e)
        ⟨i0, m0, p0, a0, f0, l0, te0, tv0, ts0, tp0, sa0, lu0, 1, none, sv0⟩ ts := by
    intro ts
    simp only [failTimes]
    rw [E1]
  have hT := lockout_tail e
    ⟨i0, m0, p0, a0, f0, l0, te0, tv0, ts0, tp0, sa0, lu0, 1, none, sv0⟩ t2 t3 t4 t5 rfl rfl
  refine ⟨?_, ?_, ?_, ?_, ?_, ?_, ?_, ?_⟩
  · rw [E1]
  · rw [F0 []]
    exact hT.1
  · rw [F0 [t2]]
    exact hT.2.1
  · rw [F0 [t2, t3]]
    exact hT.2.2.1
  · rw [F0 [t2, t3, t4]]
    exact hT.2.2.2.1
  · rw [F0 [t2, t3, t4, t5]]
    exact hT.2.2.2.2.1
  · rw [F0 [t2, t3, t4, t5]]
    exact hT.2.2.2.2.2.1
  · intro tAfter hge
    rw [F0 [t2, t3, t4, t5]]
    exact hT.2.2.2.2.2.2 tAfter hge

/-- Witness for C4: a fresh account locked by five failures at concrete
instants; locked at instant 50, unlocked again at 300051. -/
theorem totp_lockout_after_five_failures_witness :
    (recordFailedAttempt (buildConfig envProd)
      (failTimes (buildConfig envProd) hospFresh [10, 20, 30, 40]) 50).2 = ⟨true, 0⟩ ∧
    checkTotpLockout (buildConfig envProd)
      (failTimes (buildConfig envProd) hospFresh [10, 20, 30, 40, 50]) 50 =
      ⟨true, some (50 + 5 * 60 * 1000), 0⟩ ∧
    (checkTotpLockout (buildConfig envProd)
      (failTimes (buildConfig envProd) hospFresh [10, 20, 30, 40, 50]) 300051).isLocked = false := by
  have hmain := totp_lockout_after_five_failures envProd hospFresh 10 20 30 40 50 rfl (Or.inl rfl)
  exact ⟨hmain.2.2.2.2.1, hmain.2.2.2.2.2.2.1, hmain.2.2.2.2.2.2.2 300051 (by decide)⟩

/-- Helper: after `invalidateSession` deletes the rows keyed by `tok`, no
lookup by `tok` succeeds. -/
theorem find?_invalidateSession (sessions : List Session) (tok : Jwt) :
    (invalidateSession sessions tok).find? (fun s => s.refreshToken == tok) = none := by
  apply List.find?_eq_none.mpr
  intro x hx
  have hmem := List.mem_filter.mp hx
  simpa using hmem.2

/-- **C8.**  After `logout(refreshToken)` succeeds, a `refresh` presenting
the same token fails, even though the token's signature and expiry are still
valid (second conjunct); liveness is gated by the persisted session row: with
a row present the same token refreshes successfully (third conjunct), and
once `logout` has deleted the row the refresh is rejected with the
invalid-session error (last conjunct). -/
theorem logout_revokes_refresh_token (c : Config) (st : St) (tok : Jwt) (nowMs : Nat)
    (hsig : tok.key = c.REFRESH_TOKEN_SECRET) (hexp : nowMs < tok.exp) :
    (logoutCtrl st (some tok)).1 = .ok ∧
    jwtVerifyRaw tok c.REFRESH_TOKEN_SECRET nowMs = .ok tok.claims ∧
    (∀ s, st.sessions.find? (fun x => x.refreshToken == tok) = some s →
      (refreshTokenCtrl c st (some tok) nowMs).1 =
        .ok { accessToken := mkAccessToken c s.hospitalId nowMs, refreshToken := tok
              tokenType := "Bearer", expiresIn := 24 * 60 * 60 }) ∧
    (refreshTokenCtrl c (logoutCtrl st (some tok)).2 (some tok) nowMs).1 =
      .unauthorized "Invalid session" := by
  have hver : jwtVerifyRaw tok c.REFRESH_TOKEN_SECRET nowMs = .ok tok.claims := by
    simp [jwtVerifyRaw, hsig, Nat.not_le.mpr hexp]
  refine ⟨rfl, hver, ?_, ?_⟩
  · intro s hfind
    simp [refreshTokenCtrl, refreshAccessToken, hfind, hver]
  · simp [refreshTokenCtrl, logoutCtrl, refreshAccessToken, find?_invalidateSession]

/-- Witness for C8: with the concrete session row, the refresh token works
before logout and is rejected with the invalid-session error afterwards. -/
theorem logout_revokes_refresh_token_witness :
    (refreshTokenCtrl cfgProd stSession (some refreshTokenW) 100).1 =
      .ok { accessToken := mkAccessToken cfgProd 7 100, refreshToken := refreshTokenW
            tokenType := "Bearer", expiresIn := 24 * 60 * 60 } ∧
    (refreshTokenCtrl cfgProd (logoutCtrl stSession (some refreshTokenW)).2
        (some refreshTokenW) 100).1 = .unauthorized "Invalid session" :=
  ⟨(logout_revokes_refresh_token cfgProd stSession refreshTokenW 100 rfl
      (by decide)).2.2.1 sessionRowW (by decide),
   (logout_revokes_refresh_token cfgProd stSession refreshTokenW 100 rfl
      (by decide)).2.2.2⟩

/-- Helper: `consumeBackupCode` finds nothing exactly when no unused row
matches. -/
theorem consumeBackupCode_eq_none_iff (hid : Nat) (n : String) (now : Nat)
    (db : List BackupRow) :
    consumeBackupCode hid n now db = none ↔ matchCount hid n db = 0 := by
  induction db with
  | nil => simp [consumeBackupCode, matchCount]
  | cons r rest ih =>
    by_cases hc : (r.hospitalId == hid && !r.isUsed && compareOtp n r.codeHash) = true
    · simp [consumeBackupCode, matchCount, List.countP_cons, hc]
    · simp [consumeBackupCode, matchCount, List.countP_cons, hc] at ih ⊢
      exact ih

/-- Helper: a successful `consumeBackupCode` lowers both the number of
matching unused rows and the total number of unused rows of the hospital by
exactly one. -/
theorem consumeBackupCode_counts (hid : Nat) (n : String) (now : Nat) :
    ∀ db db1 : List BackupRow, consumeBackupCode hid n now db = some db1 →
      matchCount hid n db1 + 1 = matchCount hid n db ∧
      getBackupCodesCount hid db1 + 1 = getBackupCodesCount hid db := by
  intro db
  induction db with
  | nil => intro db1 hcon; simp [consumeBackupCode] at hcon
  | cons r rest ih =>
    intro db1 hcon
    by_cases hc : (r.hospitalId == hid && !r.isUsed && compareOtp n r.codeHash) = true
    · rw [consumeBackupCode, if_pos hc] at hcon
      obtain ⟨⟨h1, h2⟩, h3⟩ : (r.hospitalId = hid ∧ r.isUsed = false) ∧ r.codeHash.plain = n := by
        simpa [compareOtp] using hc
      have hX := Option.some_inj.mp hcon
      subst hX
      constructor
      · simp [matchCount, List.countP_cons, compareOtp, h1, h2, h3]
      · simp [getBackupCodesCount, List.countP_cons, h1, h2]
    · rw [consumeBackupCode, if_neg hc] at hcon
      have hsplit : ∃ l, consumeBackupCode hid n now rest = some l ∧ db1 = r :: l := by
        rcases hcon2 : consumeBackupCode hid n now rest with _ | l
        · rw [hcon2] at hcon
          simp at hcon
        · rw [hcon2] at hcon
          simp at hcon
          exact ⟨l, rfl, hcon.symm⟩
      obtain ⟨l, hl, rfl⟩ := hsplit
      have hrec := ih l hl
      constructor
      · have hcfalse : (r.hospitalId == hid && !r.isUsed && compareOtp n r.codeHash) = false :=
          Bool.not_eq_true _ ▸ (by simpa using hc)
        simp [matchCount, List.countP_cons, hcfalse] at hrec ⊢
        omega
      · by_cases hp : (r.hospitalId == hid && !r.isUsed) = true <;>
          simp [getBackupCodesCount, List.countP_cons, hp] at hrec ⊢ <;>
          omega

/-- Counterexample for C6: the draws from `crypto.randomBytes` are not
deduplicated, so a draw stream repeating `"0000"` makes `generateBackupCodes`
emit ten identical codes — not pairwise distinct — and the duplicate code is
then accepted twice in a row by `verifyBackupCode` (each acceptance consuming
a different row holding the same code). -/
theorem backup_codes_duplicate_draws_counterexample :
    ¬ List.Nodup (generateBackupCodes cfgProd 9 zeroDraws []).2 ∧
    (generateBackupCodes cfgProd 9 zeroDraws []).2.length = 10 ∧
    (verifyBackupCode 9 "0000-0000" 5 (generateBackupCodes cfgProd 9 zeroDraws []).1).1 = true ∧
    (verifyBackupCode 9 "0000-0000" 6
      (verifyBackupCode 9 "0000-0000" 5 (generateBackupCodes cfgProd 9 zeroDraws []).1).2).1 = true := by
  refine ⟨by decide, by decide, by decide, by decide⟩

/-- **C6** (amended).  `generateBackupCodes` deletes all prior rows of the
account and emits `MAX_BACKUP_CODES || 10 = 10` codes, leaving exactly ten
unused rows for the account and every other account's rows untouched; the
codes are pairwise distinct only when the random draws make them so (no
deduplication is performed — see the counterexample).  A code matching
exactly one stored unused hash — as every code of a distinct batch does — is
usable exactly once: `verifyBackupCode` accepts it and a second call with the
same code fails. -/
theorem backup_codes_count_and_single_use (e : Env) (hid : Nat) (draws : Nat → String)
    (db db0 : List BackupRow) (code : String) (t1 t2 : Nat)
    (hm : matchCount hid (normalizeCode code) db0 = 1) :
    (generateBackupCodes (buildConfig e) hid draws db).2.length = 10 ∧
    getBackupCodesCount hid (generateBackupCodes (buildConfig e) hid draws db).1 = 10 ∧
    ((generateBackupCodes (buildConfig e) hid draws db).1.filter
        (fun r => r.hospitalId != hid) = db.filter (fun r => r.hospitalId != hid)) ∧
    (∃ db2, verifyBackupCode hid code t1 db0 = (true, db2) ∧
      matchCount hid (normalizeCode code) db2 = 0 ∧
      (verifyBackupCode hid code t2 db2).1 = false ∧
      (verifyBackupCode hid code t2 db2).2 = db2) := by
  refine ⟨?_, ?_, ?_, ?_⟩
  · simp [generateBackupCodes, buildConfig, jsOrNat]
  · rw [generateBackupCodes]
    simp only [buildConfig, jsOrNat]
    rw [getBackupCodesCount, List.countP_append]
    have hz : List.countP (fun r => r.hospitalId == hid && !r.isUsed)
        (db.filter (fun r => r.hospitalId != hid)) = 0 := by
      apply List.countP_eq_zero.mpr
      intro r hr
      have := (List.mem_filter.mp hr).2
      simp at this ⊢
      intro hcontra
      exact absurd hcontra this
    have hall : List.countP (fun r => r.hospitalId == hid && !r.isUsed)
        ((List.range (jsOrNat none 10)).map (fun i =>
          ({ hospitalId := hid, codeHash := hashOtp i (jsReplaceFirst (draws (2 * i) ++ "-" ++ draws (2 * i + 1)) "-" "")
             isUsed := false, usedAt := none } : BackupRow))) = jsOrNat none 10 := by
      rw [List.countP_eq_length.mpr]
      · simp
      · intro r hr
        obtain ⟨i, _, rfl⟩ := List.mem_map.mp hr
        simp
    simp only [jsOrNat] at hz hall ⊢
    omega
  · rw [generateBackupCodes]
    simp only [buildConfig, jsOrNat]
    rw [List.filter_append]
    have h2 : List.filter (fun r => r.hospitalId != hid)
        ((List.range 10).map (fun i =>
          ({ hospitalId := hid, codeHash := hashOtp i (jsReplaceFirst (draws (2 * i) ++ "-" ++ draws (2 * i + 1)) "-" "")
             isUsed := false, usedAt := none } : BackupRow))) = [] := by
      apply List.filter_eq_nil_iff.mpr
      intro r hr
      obtain ⟨i, _, rfl⟩ := List.mem_map.mp hr
      simp
    rw [h2, List.append_nil, List.filter_filter]
    simp
  · rcases hcon : consumeBackupCode hid (normalizeCode code) t1 db0 with _ | db2
    · exact absurd ((consumeBackupCode_eq_none_iff hid (normalizeCode code) t1 db0).mp hcon)
        (by omega)
    · have hcounts := consumeBackupCode_counts hid (normalizeCode code) t1 db0 db2 hcon
      have hzero : matchCount hid (normalizeCode code) db2 = 0 := by omega
      have hnone : consumeBackupCode hid (normalizeCode code) t2 db2 = none :=
        (consumeBackupCode_eq_none_iff hid (normalizeCode code) t2 db2).mpr hzero
      exact ⟨db2, by simp [verifyBackupCode, hcon], hzero,
        by simp [verifyBackupCode, hnone], by simp [verifyBackupCode, hnone]⟩

/-- Witness for C6 (amended): with pairwise-distinct draws, the first
generated code matches exactly one stored row; it verifies once and a second
attempt fails. -/
theorem backup_codes_count_and_single_use_witness :
    getBackupCodesCount 9 (generateBackupCodes (buildConfig envProd) 9 upperDraws []).1 = 10 ∧
    (∃ db2, verifyBackupCode 9 "A-AA" 5 (generateBackupCodes (buildConfig envProd) 9 upperDraws []).1 =
        (true, db2) ∧
      matchCount 9 (normalizeCode "A-AA") db2 = 0 ∧
      (verifyBackupCode 9 "A-AA" 6 db2).1 = false ∧
      (verifyBackupCode 9 "A-AA" 6 db2).2 = db2) :=
  ⟨(backup_codes_count_and_single_use envProd 9 upperDraws []
      (generateBackupCodes (buildConfig envProd) 9 upperDraws []).1 "A-AA" 5 6
      (by decide)).2.1,
   (backup_codes_count_and_single_use envProd 9 upperDraws []
      (generateBackupCodes (buildConfig envProd) 9 upperDraws []).1 "A-AA" 5 6
      (by decide)).2.2.2⟩

/-- **C5.**  While an account's TOTP lockout is active
(`totpLockedUntil` in the future), `verifyTotpLogin` answers the 423 locked
response for *every* submitted code — the code is never verified and nothing
but the audit sink changes — whereas `recoveryLogin` performs no lockout
check: a backup code matching an unused stored hash still succeeds during
the lockout window, opens a session (one new session row) and consumes that
code, decrementing the unused-code count by exactly one. -/
theorem lockout_blocks_totp_login_but_not_recovery (e : Env)
    (digest : String → Int → Nat) (st : St) (hid : Nat) (h : Hosp)
    (u nowMs : Nat) (code ua ip : String)
    (hfind : findHospital st.hospitals hid = some h)
    (hlock : h.totpLockedUntil = some u) (hu : nowMs < u)
    (hm : 1 ≤ matchCount hid (normalizeCode code) st.backupCodes) :
    (∀ tok, verifyTotpLoginCtrl (buildConfig e) digest st (some hid) (some tok) ua ip nowMs =
      (.locked (some u), { st with audits := st.audits + 1 })) ∧
    (∃ db2,
      verifyBackupCode hid code nowMs st.backupCodes = (true, db2) ∧
      getBackupCodesCount hid db2 + 1 = getBackupCodesCount hid st.backupCodes ∧
      recoveryLoginCtrl (buildConfig e) st (some hid) (some code) ua ip nowMs =
        (.success (createSession (buildConfig e) hid (deviceIdOf ua) ip ua nowMs st.sessions).2
           (getBackupCodesCount hid db2),
         { st with hospitals := saveHospital st.hospitals (resetFailedAttempts h)
                   backupCodes := db2
                   sessions := (createSession (buildConfig e) hid (deviceIdOf ua) ip ua nowMs st.sessions).1
                   audits := st.audits + 1 }) ∧
      ((createSession (buildConfig e) hid (deviceIdOf ua) ip ua nowMs st.sessions).1).length =
        st.sessions.length + 1) := by
  constructor
  · intro tok
    simp [verifyTotpLoginCtrl, hfind, checkTotpLockout, hlock, hu]
  · rcases hcon : consumeBackupCode hid (normalizeCode code) nowMs st.backupCodes with _ | db2
    · exact absurd ((consumeBackupCode_eq_none_iff hid (normalizeCode code) nowMs
        st.backupCodes).mp hcon) (by omega)
    · have hcounts := consumeBackupCode_counts hid (normalizeCode code) nowMs
        st.backupCodes db2 hcon
      have hv : verifyBackupCode hid code nowMs st.backupCodes = (true, db2) := by
        simp [verifyBackupCode, hcon]
      refine ⟨db2, hv, hcounts.2, ?_, by simp [createSession]⟩
      simp [recoveryLoginCtrl, hfind, hv]

/-- Witness for C5: the locked account `hospLocked` (locked until 301000) at
instant 1000 rejects a TOTP attempt with the locked response, while its
backup code `"A0-A1"` still logs it in and consumes the only unused row. -/
theorem lockout_blocks_totp_login_but_not_recovery_witness :
    verifyTotpLoginCtrl (buildConfig envProd) demoDigest stLocked (some 3) (some 123456)
      "ua" "ip" 1000 = (.locked (some 301000), { stLocked with audits := 1 }) ∧
    (∃ db2,
      verifyBackupCode 3 "A0-A1" 1000 stLocked.backupCodes = (true, db2) ∧
      getBackupCodesCount 3 db2 + 1 = getBackupCodesCount 3 stLocked.backupCodes ∧
      recoveryLoginCtrl (buildConfig envProd) stLocked (some 3) (some "A0-A1") "ua" "ip" 1000 =
        (.success (createSession (buildConfig envProd) 3 (deviceIdOf "ua") "ip" "ua" 1000
             stLocked.sessions).2 (getBackupCodesCount 3 db2),
         { stLocked with
             hospitals := saveHospital stLocked.hospitals (resetFailedAttempts hospLocked)
             backupCodes := db2
             sessions := (createSession (buildConfig envProd) 3 (deviceIdOf "ua") "ip" "ua" 1000
               stLocked.sessions).1
             audits := 1 }) ∧
      ((createSession (buildConfig envProd) 3 (deviceIdOf "ua") "ip" "ua" 1000
        stLocked.sessions).1).length = stLocked.sessions.length + 1) :=
  ⟨(lockout_blocks_totp_login_but_not_recovery envProd demoDigest stLocked 3 hospLocked
      301000 1000 "A0-A1" "ua" "ip" (by decide) rfl (by decide) (by decide)).1 123456,
   (lockout_blocks_totp_login_but_not_recovery envProd demoDigest stLocked 3 hospLocked
      301000 1000 "A0-A1" "ua" "ip" (by decide) rfl (by decide) (by decide)).2⟩

/-- Helper: after filtering out the rows with id `pid`, no lookup by `pid`
succeeds. -/
theorem find?_filter_ne_pendings (l : List PendingHosp) (pid : Nat) :
    (l.filter (fun q => q.id != pid)).find? (fun q => q.id == pid) = none := by
  apply List.find?_eq_none.mpr
  intro x hx
  simpa using (List.mem_filter.mp hx).2

/-- **C7.**  With a valid, unexpired registration token of type
`REGISTRATION_VERIFY`, an existing pending record, no email collision, and a
strict-window-correct TOTP code, `verifyRegistration` answers the success
response, creates exactly one permanent Hospital (carrying the pending
record's email, secret and verified-TOTP flags) and deletes the Pending
Registration; with an invalid or expired token — or a token of the wrong
type — it answers "Invalid or expired registration session" and changes no
persisted state. -/
theorem verify_registration_creates_one_account (e : Env)
    (digest : String → Int → Nat) (st : St) (t : Jwt) (code : Nat) (pid : Nat)
    (p : PendingHosp) (newHid : Nat) (draws : Nat → String) (ua ip : String) (nowMs : Nat)
    (hsig : t.key = (buildConfig e).JWT_SECRET) (hexp : nowMs < t.exp)
    (htype : t.claims.type = some "REGISTRATION_VERIFY")
    (hpid : t.claims.pendingId = some pid)
    (hfind : st.pendings.find? (fun q => q.id == pid) = some p)
    (hnocoll : st.hospitals.any (fun x => x.email == p.email) = false)
    (hcode : verifyTotpToken (buildConfig e) digest p.totpSecretEncrypted code true nowMs = true) :
    ((verifyRegistrationCtrl (buildConfig e) digest st (some t) (some code) newHid draws
        ua ip nowMs).1 =
      .success (generateBackupCodes (buildConfig e) newHid draws st.backupCodes).2
        (createSession (buildConfig e) newHid (deviceIdOf ua) ip ua nowMs st.sessions).2) ∧
    (∃ hnew,
      (verifyRegistrationCtrl (buildConfig e) digest st (some t) (some code) newHid draws
          ua ip nowMs).2.hospitals = hnew :: st.hospitals ∧
      hnew.id = newHid ∧ hnew.email = p.email ∧ hnew.isActive = true ∧
      hnew.totpEnabled = true ∧ hnew.totpVerified = true ∧
      hnew.totpSecretEncrypted = some p.totpSecretEncrypted) ∧
    ((verifyRegistrationCtrl (buildConfig e) digest st (some t) (some code) newHid draws
        ua ip nowMs).2.hospitals.length = st.hospitals.length + 1) ∧
    ((verifyRegistrationCtrl (buildConfig e) digest st (some t) (some code) newHid draws
        ua ip nowMs).2.pendings.find? (fun q => q.id == pid) = none) ∧
    (∀ t2 code2,
      (∀ d, jwtVerifyRaw t2 (buildConfig e).JWT_SECRET nowMs = .ok d →
        d.type ≠ some "REGISTRATION_VERIFY") →
      verifyRegistrationCtrl (buildConfig e) digest st (some t2) (some code2) newHid draws
          ua ip nowMs =
        (.badRequest "Invalid or expired registration session", st)) := by
  have hver : jwtVerifyRaw t (buildConfig e).JWT_SECRET nowMs = .ok t.claims := by
    simp [jwtVerifyRaw, hsig, Nat.not_le.mpr hexp]
  have hp : p.id = pid := by simpa using List.find?_some hfind
  have hred : verifyRegistrationCtrl (buildConfig e) digest st (some t) (some code) newHid draws
      ua ip nowMs =
      (.success (generateBackupCodes (buildConfig e) newHid draws st.backupCodes).2
         (createSession (buildConfig e) newHid (deviceIdOf ua) ip ua nowMs st.sessions).2,
       { st with
           hospitals :=
             { id := newHid, email := p.email, passwordHash := p.passwordHash
               isActive := true, totpEnabled := true, totpVerified := true
               totpSecretEncrypted := some p.totpSecretEncrypted
               totpSetupAt := some nowMs, failedLoginAttempts := 0 } :: st.hospitals
           pendings := st.pendings.filter (fun q => q.id != p.id)
           backupCodes := (generateBackupCodes (buildConfig e) newHid draws st.backupCodes).1
           sessions := (createSession (buildConfig e) newHid (deviceIdOf ua) ip ua nowMs
             st.sessions).1
           audits := st.audits + 1 }) := by
    simp [verifyRegistrationCtrl, hver, htype, hpid, hfind, hnocoll, hcode]
  refine ⟨?_, ?_, ?_, ?_, ?_⟩
  · rw [hred]
  · exact ⟨_, by rw [hred], rfl, rfl, rfl, rfl, rfl, rfl⟩
  · rw [hred]
    simp
  · rw [hred]
    simp only [hp]
    exact find?_filter_ne_pendings st.pendings pid
  · intro t2 code2 hbad
    rcases hj : jwtVerifyRaw t2 (buildConfig e).JWT_SECRET nowMs with err | d
    · simp [verifyRegistrationCtrl, hj]
    · simp [verifyRegistrationCtrl, hj, hbad d hj]

/-- Witness for C7: the concrete pending registration is promoted by its
current code into exactly one Hospital and removed; an expired registration
token is rejected with the session-expired error leaving the state
unchanged. -/
theorem verify_registration_creates_one_account_witness :
    ((verifyRegistrationCtrl cfgProd demoDigest stPending (some regTokenW)
        (some (codeAt demoDigest "REGSECRET" 1000)) 99 upperDraws "ua" "ip" 1000).2.hospitals.length =
      stPending.hospitals.length + 1) ∧
    ((verifyRegistrationCtrl cfgProd demoDigest stPending (some regTokenW)
        (some (codeAt demoDigest "REGSECRET" 1000)) 99 upperDraws "ua" "ip" 1000).2.pendings.find?
        (fun q => q.id == 11) = none) ∧
    (verifyRegistrationCtrl cfgProd demoDigest stPending
        (some { claims := { pendingId := some 11, type := some "REGISTRATION_VERIFY" }
                key := cfgProd.JWT_SECRET, exp := 500 })
        (some 123456) 99 upperDraws "ua" "ip" 1000 =
      (.badRequest "Invalid or expired registration session", stPending)) :=
  ⟨(verify_registration_creates_one_account envProd demoDigest stPending regTokenW
      (codeAt demoDigest "REGSECRET" 1000) 11 pendingReg 99 upperDraws "ua" "ip" 1000
      rfl (by decide) rfl rfl (by decide) rfl (by decide)).2.2.1,
   (verify_registration_creates_one_account envProd demoDigest stPending regTokenW
      (codeAt demoDigest "REGSECRET" 1000) 11 pendingReg 99 upperDraws "ua" "ip" 1000
      rfl (by decide) rfl rfl (by decide) rfl (by decide)).2.2.2.1,
   (verify_registration_creates_one_account envProd demoDigest stPending regTokenW
      (codeAt demoDigest "REGSECRET" 1000) 11 pendingReg 99 upperDraws "ua" "ip" 1000
      rfl (by decide) rfl rfl (by decide) rfl (by decide)).2.2.2.2
      { claims := { pendingId := some 11, type := some "REGISTRATION_VERIFY" }
        key := cfgProd.JWT_SECRET, exp := 500 } 123456
      (fun d hd => by simp [jwtVerifyRaw, cfgProd] at hd)⟩

end HospitalAuth
